import Mathlib

/-!
Verification of the MarketDaily news ingestion and report distribution core.

The definitions below are a shallow embedding of the JavaScript sources
(`NewsService`, `EmailService`): pure JS functions become Lean functions on
`String`, `List`, `ℚ` and `Int`; database rows become Lean structures; calls to
external collaborators (HTTP fetch, the SQL engine, the AI backend, the mail
transport) are passed in as explicit outcome parameters (`Except`/`Option`),
mirroring the `try`/`catch` structure of the code.
-/

deriving instance DecidableEq for Except

/-- JS `String.prototype.toLowerCase`, modelled as per-character lowering. -/
def toLowerStr (s : String) : String :=
  String.mk (s.data.map Char.toLower)

/-- `chunkLeads needle hay`: `needle` is a prefix of `hay`. -/
def chunkLeads : List Char → List Char → Bool
  | [], _ => true
  | _ :: _, [] => false
  | a :: as, b :: bs => a == b && chunkLeads as bs

/-- `chunkOccurs needle hay`: `needle` occurs contiguously inside `hay`. -/
def chunkOccurs (needle : List Char) : List Char → Bool
  | [] => needle.isEmpty
  | c :: t => chunkLeads needle (c :: t) || chunkOccurs needle t

/-- JS `String.prototype.includes`: substring containment. -/
def containsStr (hay needle : String) : Bool :=
  chunkOccurs needle.data hay.data

/-- JS `String.prototype.trim`, modelled as dropping whitespace at both ends. -/
def trimStr (s : String) : String :=
  String.mk (((s.data.dropWhile Char.isWhitespace).reverse.dropWhile
    Char.isWhitespace).reverse)

/-- JS `String.prototype.split(',')` on the character list. -/
def splitCommaAux : List Char → List Char → List String
  | [], acc => [String.mk acc.reverse]
  | c :: t, acc =>
    if c == ',' then String.mk acc.reverse :: splitCommaAux t []
    else splitCommaAux t (c :: acc)

/-- JS `String.prototype.split(',')`. -/
def splitComma (s : String) : List String :=
  splitCommaAux s.data []

/-- A portfolio stock row (`SELECT symbol, name FROM portfolio_stocks`). -/
structure Stock where
  symbol : String
  name : String
deriving DecidableEq

/-- An industry row (`SELECT name, keywords FROM industries`); `keywords` is a
comma-joined string column that may be NULL. -/
structure Industry where
  name : String
  keywords : Option String
deriving DecidableEq

/-- JS truthiness split of the `keywords` column:
`industry.keywords ? industry.keywords.split(',') : []`
(NULL and the empty string are falsy). -/
def jsKeywordsList (k : Option String) : List String :=
  match k with
  | none => []
  | some s => if s = "" then [] else splitComma s

/-- The generic financial-keyword list of `NewsService.isRelevantNews`. -/
def financialKeywords : List String :=
  ["stock", "market", "earnings", "revenue", "profit", "loss",
   "shares", "dividend", "investment", "trading", "nasdaq", "dow",
   "s&p", "fed", "interest rate", "inflation", "gdp"]

/-- Holding check of `isRelevantNews`: the lowered title contains the stock's
symbol or name (lowered). -/
def stockMatches (titleLower : String) (s : Stock) : Bool :=
  containsStr titleLower (toLowerStr s.symbol) ||
  containsStr titleLower (toLowerStr s.name)

/-- Industry check of `isRelevantNews`: some comma-split keyword (trimmed,
lowered) or the industry name (lowered) occurs in the lowered title. -/
def industryMatches (titleLower : String) (i : Industry) : Bool :=
  (jsKeywordsList i.keywords).any
    (fun k => containsStr titleLower (toLowerStr (trimStr k))) ||
  containsStr titleLower (toLowerStr i.name)

/-- `NewsService.isRelevantNews(title, portfolio, industries)` from the first
`NewsService` class: stock loop, then industry loop, then the generic
financial-keyword fallback; each loop returns `true` on first match. -/
def isRelevantNews (title : String) (portfolio : List Stock)
    (industries : List Industry) : Bool :=
  let titleLower := toLowerStr title
  if portfolio.any (stockMatches titleLower) then true
  else if industries.any (industryMatches titleLower) then true
  else financialKeywords.any (fun k => containsStr titleLower k)

/-- `isRelevantNews` of the second `NewsService` class (the duplicated
definition later in the source); transcribed from its own occurrence. -/
def isRelevantNews2 (title : String) (portfolio : List Stock)
    (industries : List Industry) : Bool :=
  let titleLower := toLowerStr title
  if portfolio.any (stockMatches titleLower) then true
  else if industries.any (industryMatches titleLower) then true
  else financialKeywords.any (fun k => containsStr titleLower k)

/-- The extended keyword list of `NewsService.isFinancialNews`. -/
def financialNewsKeywords : List String :=
  ["stock", "market", "earnings", "revenue", "profit", "loss",
   "shares", "dividend", "investment", "trading", "nasdaq", "dow",
   "s&p", "fed", "interest rate", "inflation", "gdp", "economy",
   "wall street", "finance", "financial", "company", "business",
   "ceo", "ipo", "merger", "acquisition", "quarter", "fiscal"]

/-- `NewsService.isFinancialNews(title)`: the looser generic check used when no
portfolio or industry data exists. -/
def isFinancialNews (title : String) : Bool :=
  let titleLower := toLowerStr title
  financialNewsKeywords.any (fun k => containsStr titleLower k)

/-- The relevance decision inside `fetchNewsFromAPI`:
`portfolio.length === 0 && industries.length === 0 ? isFinancialNews(title)
: isRelevantNews(title, portfolio, industries)`. -/
def apiArticleRelevant (title : String) (portfolio : List Stock)
    (industries : List Industry) : Bool :=
  if portfolio.isEmpty && industries.isEmpty then isFinancialNews title
  else isRelevantNews title portfolio industries

/-- The fixed keyword→category table of `categorizeNews`, in object-literal
order. -/
def categoryTable : List (String × List String) :=
  [("earnings", ["earnings", "revenue", "profit", "loss"]),
   ("market", ["market", "trading", "index", "dow", "nasdaq", "s&p"]),
   ("policy", ["fed", "interest rate", "policy", "regulation"]),
   ("economy", ["gdp", "inflation", "employment", "economic"])]

/-- `NewsService.categorizeNews(title, industries)` from the first class:
first industry whose name occurs in the lowered title wins; else the first
table category with a matching keyword; else `"general"`. -/
def categorizeNews (title : String) (industries : List Industry) : String :=
  let titleLower := toLowerStr title
  match industries.find? (fun i => containsStr titleLower (toLowerStr i.name)) with
  | some i => i.name
  | none =>
    match categoryTable.find? (fun p => p.2.any (fun k => containsStr titleLower k)) with
    | some p => p.1
    | none => "general"

/-- `categorizeNews` of the second `NewsService` class; transcribed from its
own occurrence. -/
def categorizeNews2 (title : String) (industries : List Industry) : String :=
  let titleLower := toLowerStr title
  match industries.find? (fun i => containsStr titleLower (toLowerStr i.name)) with
  | some i => i.name
  | none =>
    match categoryTable.find? (fun p => p.2.any (fun k => containsStr titleLower k)) with
    | some p => p.1
    | none => "general"

/-- Numeric value of a digit list (most significant first). -/
def digitsVal (ds : List Char) : Nat :=
  ds.foldl (fun a c => a * 10 + (c.toNat - 48)) 0

/-- Model of JS `parseFloat`, restricted to the decimal forms the sentiment
path can meet: leading whitespace, optional sign, digits, optional fraction.
`none` models `NaN` (no digit parsed, e.g. `"banana"`). -/
def parseJSFloat (s : String) : Option ℚ :=
  let cs := s.data.dropWhile Char.isWhitespace
  let signed : Bool × List Char :=
    match cs with
    | '-' :: t => (true, t)
    | '+' :: t => (false, t)
    | _ => (false, cs)
  let intPart := signed.2.takeWhile Char.isDigit
  let rest := signed.2.dropWhile Char.isDigit
  let fracPart :=
    match rest with
    | '.' :: t => t.takeWhile Char.isDigit
    | _ => []
  if intPart.isEmpty && fracPart.isEmpty then none
  else
    let magnitude : ℚ :=
      if fracPart.isEmpty then (digitsVal intPart : ℚ)
      else (digitsVal intPart : ℚ) +
        (digitsVal fracPart : ℚ) / ((10 : ℚ) ^ fracPart.length)
    some (if signed.1 then -magnitude else magnitude)

/-- `NewsService.analyzeSentiment(text)`. The OpenAI call is abstracted as its
outcome: `.error` when the request (or response access) throws, `.ok content`
when it returns a message content string. `openaiConfigured` models
`this.openai` being non-null. The code parses the trimmed content with
`parseFloat` and returns `isNaN ? 0 : Math.max(-1, Math.min(1, sentiment))`;
any thrown error is caught and `0` returned. -/
def analyzeSentiment (openaiConfigured : Bool)
    (aiResult : Except String String) : ℚ :=
  if !openaiConfigured then 0
  else
    match aiResult with
    | .error _ => 0
    | .ok content =>
      match parseJSFloat (trimStr content) with
      | none => 0
      | some q => max (-1) (min 1 q)

/-- `exceptOk r` is `true` exactly when `r` did not throw. -/
def exceptOk {ε α : Type} : Except ε α → Bool
  | .ok _ => true
  | .error _ => false

/-- JS string coercion of a nullable string (`null` prints as `"null"` under
string concatenation, as in `article.title + ' ' + content`). -/
def jsStringOfNullable (v : Option String) : String :=
  v.getD "null"

/-- `NewsService.extractRelatedSymbols(text, portfolio)`: collect the symbol of
every stock whose symbol or name occurs in the lowered text. -/
def extractRelatedSymbols (text : String) (portfolio : List Stock) :
    List String :=
  let textLower := toLowerStr text
  (portfolio.filter (fun s =>
      containsStr textLower (toLowerStr s.symbol) ||
      containsStr textLower (toLowerStr s.name))).map (fun s => s.symbol)

/-- A candidate article as produced by the fetch tiers. -/
structure ArticleInput where
  title : String
  url : String
  source : String
deriving DecidableEq

/-- A row of the `news` table. `symbols` models the JSON-encoded
`symbols` column as the list it round-trips to; `createdAt` is a millisecond
timestamp. -/
structure NewsRow where
  title : String
  content : Option String
  summary : String
  url : String
  source : String
  category : String
  symbols : List String
  sentiment : ℚ
  createdAt : Int
deriving DecidableEq

/-- The body of `NewsService.saveNews` inside its `try`: look up the URL
(`selectOutcome` models the SELECT possibly throwing), no-op when a row
exists, otherwise enrich and INSERT (`insertOutcome` models the INSERT
possibly throwing). `content`, `summary` and `sentiment` are the results of
`fetchArticleContent`, `generateSummary` and `analyzeSentiment`, which never
throw thanks to their own internal catches. -/
def saveNewsBody (store : List NewsRow) (article : ArticleInput)
    (portfolio : List Stock) (industries : List Industry)
    (selectOutcome : Except String Unit) (content : Option String)
    (summary : String) (sentiment : ℚ) (insertOutcome : Except String Unit)
    (now : Int) : Except String (List NewsRow) :=
  match selectOutcome with
  | .error e => .error e
  | .ok _ =>
    if store.any (fun r => r.url == article.url) then
      .ok store
    else
      let relatedSymbols := extractRelatedSymbols
        (article.title ++ " " ++ jsStringOfNullable content) portfolio
      let category := categorizeNews article.title industries
      match insertOutcome with
      | .error e => .error e
      | .ok _ =>
        .ok (store ++ [⟨article.title, content, summary, article.url,
          article.source, category, relatedSymbols, sentiment, now⟩])

/-- `NewsService.saveNews`: the whole body is wrapped in `try`/`catch`; any
error is logged and swallowed, leaving the store unchanged. -/
def saveNews (store : List NewsRow) (article : ArticleInput)
    (portfolio : List Stock) (industries : List Industry)
    (selectOutcome : Except String Unit) (content : Option String)
    (summary : String) (sentiment : ℚ) (insertOutcome : Except String Unit)
    (now : Int) : Except String (List NewsRow) :=
  match saveNewsBody store article portfolio industries selectOutcome content
      summary sentiment insertOutcome now with
  | .ok s => .ok s
  | .error _ => .ok store

/-- The per-run inputs of `NewsService.updateNews`: the outcome of each
per-source call of the three tiers, and whether `this.newsApiKey` is set.
An `.ok` outcome means the call completed without throwing. -/
structure UpdateInputs where
  rssOutcomes : List (Except String Nat)
  newsApiKey : Bool
  apiOutcome : Except String Unit
  scrapeOutcomes : List (Except String Unit)

/-- Observable outcome of one `updateNews` run. -/
structure UpdateResult where
  successCount : Nat
  scrapeAttempted : Bool
  warned : Bool
  cleanupRan : Bool
deriving DecidableEq

/-- The RSS loop of `updateNews`: each `scrapeRSSSource` call is wrapped in
`try`/`catch`; a completed call bumps `successCount`, a thrown one only logs. -/
def runRSSTier : List (Except String Nat) → Nat → Nat
  | [], acc => acc
  | .ok _ :: t, acc => runRSSTier t (acc + 1)
  | .error _ :: t, acc => runRSSTier t acc

/-- The scrape-fallback loop of `updateNews`, same per-source isolation. -/
def runScrapeTier : List (Except String Unit) → Nat → Nat
  | [], acc => acc
  | .ok _ :: t, acc => runScrapeTier t (acc + 1)
  | .error _ :: t, acc => runScrapeTier t acc

/-- `NewsService.updateNews` of the first class: RSS tier over all RSS
sources, then the API tier when an API key is configured, then the scrape
fallback only when the success counter is still zero; a fully failed run only
logs a warning; `cleanOldNews` (which swallows its own errors) always runs
last. The outer `catch` rethrows, but no statement in the body can throw. -/
def updateNews (inp : UpdateInputs) : Except String UpdateResult :=
  let c1 := runRSSTier inp.rssOutcomes 0
  let c2 := if inp.newsApiKey then
      match inp.apiOutcome with
      | .ok _ => c1 + 1
      | .error _ => c1
    else c1
  let scrapeAttempted := c2 == 0
  let c3 := if scrapeAttempted then runScrapeTier inp.scrapeOutcomes c2 else c2
  .ok { successCount := c3, scrapeAttempted := scrapeAttempted,
        warned := c3 == 0, cleanupRan := true }

/-- A thrown JS error value: a free-text message plus the optional
machine-readable `code` that axios transport errors carry (for example
`ECONNABORTED`, `ENOTFOUND`); errors built with `new Error(...)` have no
code. -/
structure JsError where
  message : String
  code : Option String
deriving DecidableEq

/-- An HTTP response as far as the status checks observe it. -/
structure HttpResponse where
  status : Nat
  statusText : String
deriving DecidableEq

/-- Modelled from the spec: the machine-readable subkinds a `SourceFetchError`
would carry. The source defines no `SourceFetchError` type at all; this
enumeration exists only to state the claim. -/
inductive SourceFetchSubkind
  | timeout
  | blocked
  | rate_limited
  | not_found
  | malformed
deriving DecidableEq

/-- Modelled from the spec: whether a thrown error carries one of the
machine-readable subkinds in its only structured field. -/
def hasSpecSubkind (e : JsError) : Bool :=
  match e.code with
  | some c =>
    ["timeout", "blocked", "rate_limited", "not_found", "malformed"].contains c
  | none => false

/-- The status checks of `scrapeNewsSource` after `axios.get` (which accepts
every status below 500): 401, 403 and 429 get dedicated `new Error` messages,
any other status at or above 400 a generic HTTP error message. -/
def scrapeCheckStatus (status : Nat) (statusText : String) :
    Except JsError Unit :=
  if status == 401 then
    .error ⟨"访问被拒绝 (401) - 可能需要认证或被反爬虫系统阻止", none⟩
  else if status == 403 then
    .error ⟨"访问被禁止 (403) - 被反爬虫系统阻止", none⟩
  else if status == 429 then
    .error ⟨"请求过于频繁 (429) - 需要降低请求频率", none⟩
  else if 400 ≤ status then
    .error ⟨"HTTP错误 " ++ toString status ++ ": " ++ statusText, none⟩
  else .ok ()

/-- The fetch phase of `scrapeNewsSource`: a transport-level error (timeout,
DNS, refused) is logged by its code and rethrown unchanged; an accepted
response goes through the status checks. -/
def scrapeNewsSourceFetch (fetchOutcome : Except JsError HttpResponse) :
    Except JsError HttpResponse :=
  match fetchOutcome with
  | .error e => .error e
  | .ok resp =>
    match scrapeCheckStatus resp.status resp.statusText with
    | .error e => .error e
    | .ok _ => .ok resp

/-- The error path of `scrapeRSSSource`: the catch logs extra detail keyed on
the error code or message, then rethrows the original error unchanged. -/
def scrapeRSSSourceFetch (fetchOutcome : Except JsError (List ArticleInput)) :
    Except JsError (List ArticleInput) :=
  match fetchOutcome with
  | .error e => .error e
  | .ok items => .ok items

/-- A row of `portfolios`. -/
structure PortfolioRow where
  id : Nat
  name : String
  description : String
deriving DecidableEq

/-- A row of `portfolio_stocks`. -/
structure PortfolioStockRow where
  portfolioId : Nat
  symbol : String
  name : String
deriving DecidableEq

/-- The relational store as the report composer reads it. -/
structure DB where
  portfolios : List PortfolioRow
  portfolioStocks : List PortfolioStockRow
  news : List NewsRow
deriving DecidableEq

/-- The metrics object returned by `calculatePortfolioMetrics`; `reportDate`
abbreviates the formatted date string as the underlying timestamp. -/
structure Metrics where
  weeklyNewsCount : Nat
  monthlyNewsCount : Nat
  avgSentiment : ℚ
  reportDate : Int
deriving DecidableEq

/-- `EmailService.calculatePortfolioMetrics(portfolioId, date)`: three
sequential awaited news-store queries inside a single `try`; the `catch`
returns the all-zero metrics object. `sentimentOutcome` carries the AVG
result, which is NULL (`none`) when no row matches and is defaulted by
`|| 0`. -/
def calculatePortfolioMetrics (weeklyOutcome : Except String Nat)
    (monthlyOutcome : Except String Nat)
    (sentimentOutcome : Except String (Option ℚ)) (date : Int) : Metrics :=
  match weeklyOutcome with
  | .error _ => ⟨0, 0, 0, date⟩
  | .ok w =>
    match monthlyOutcome with
    | .error _ => ⟨0, 0, 0, date⟩
    | .ok m =>
      match sentimentOutcome with
      | .error _ => ⟨0, 0, 0, date⟩
      | .ok s => ⟨w, m, s.getD 0, date⟩

/-- How many of the three metric queries the code actually awaits before the
`catch` fires. -/
def metricQueriesIssued (weeklyOutcome monthlyOutcome : Except String Nat) :
    Nat :=
  match weeklyOutcome with
  | .error _ => 1
  | .ok _ =>
    match monthlyOutcome with
    | .error _ => 2
    | .ok _ => 3

/-- The structured report object composed per portfolio. -/
structure Report where
  portfolioName : String
  portfolioDescription : String
  stocks : List PortfolioStockRow
  totalNews : Nat
  portfolioNews : List NewsRow
  newsByCategory : List (String × List NewsRow)
  marketSentiment : ℚ
  metrics : Option Metrics
  isEmpty : Bool
deriving DecidableEq

/-- `EmailService.generateEmptyPortfolioReport(portfolio, today)`. -/
def generateEmptyPortfolioReport (portfolio : PortfolioRow) : Report :=
  { portfolioName := portfolio.name
    portfolioDescription := portfolio.description
    stocks := []
    totalNews := 0
    portfolioNews := []
    newsByCategory := []
    marketSentiment := 0
    metrics := none
    isEmpty := true }

/-- JS truthiness default of the category column: `news.category || 'general'`. -/
def jsCategoryOf (c : String) : String :=
  if c = "" then "general" else c

/-- Append a row under its category, preserving first-seen key order as a JS
object literal with string keys does. -/
def insertGrouped (cat : String) (n : NewsRow) :
    List (String × List NewsRow) → List (String × List NewsRow)
  | [] => [(cat, [n])]
  | (c, l) :: t =>
    if c == cat then (c, l ++ [n]) :: t else (c, l) :: insertGrouped cat n t

/-- The `newsByCategory` accumulation loop. -/
def groupByCategory (ns : List NewsRow) : List (String × List NewsRow) :=
  ns.foldl (fun acc n => insertGrouped (jsCategoryOf n.category) n acc) []

/-- Arithmetic mean of the sentiments, `0` for an empty list. -/
def avgSentimentOf (ns : List NewsRow) : ℚ :=
  if ns.isEmpty then 0
  else (ns.map (fun n => n.sentiment)).sum / (ns.length : ℚ)

/-- Insert a row keeping the list sorted by `createdAt` descending. -/
def insertDesc (n : NewsRow) : List NewsRow → List NewsRow
  | [] => [n]
  | m :: t =>
    if m.createdAt ≤ n.createdAt then n :: m :: t else m :: insertDesc n t

/-- `ORDER BY created_at DESC`. -/
def sortByCreatedDesc (ns : List NewsRow) : List NewsRow :=
  ns.foldr insertDesc []

/-- `NewsService.getRecentNews(limit)`: newest rows first, capped. -/
def getRecentNews (db : DB) (limit : Nat) : List NewsRow :=
  (sortByCreatedDesc db.news).take limit

/-- Start of the calendar day of a millisecond timestamp (`setHours(0,0,0,0)`),
modelled with UTC day boundaries. -/
def dayStart (d : Int) : Int :=
  (d / 86400000) * 86400000

/-- End of the calendar day (`setHours(23,59,59,999)`), UTC model. -/
def dayEnd (d : Int) : Int :=
  dayStart d + 86399999

/-- `EmailService.generatePortfolioReport(portfolioId, targetDate)`. The
second component counts the queries issued against the news store (the date
or recent-news select, plus the metric queries). The three metric query
outcomes are passed through to `calculatePortfolioMetrics`, since the SQL
engine is an external collaborator. -/
def generatePortfolioReport (db : DB) (portfolioId : Nat)
    (targetDate : Option Int) (now : Int)
    (weeklyOutcome monthlyOutcome : Except String Nat)
    (sentimentOutcome : Except String (Option ℚ)) :
    Except String Report × Nat :=
  match db.portfolios.find? (fun p => p.id == portfolioId) with
  | none => (.error "Portfolio not found", 0)
  | some portfolio =>
    let portfolioStocks :=
      db.portfolioStocks.filter (fun s => s.portfolioId == portfolioId)
    if portfolioStocks.isEmpty then
      (.ok (generateEmptyPortfolioReport portfolio), 0)
    else
      let reportDate := targetDate.getD now
      let recentNews :=
        match targetDate with
        | some d => sortByCreatedDesc (db.news.filter (fun n =>
            dayStart d ≤ n.createdAt && n.createdAt ≤ dayEnd d))
        | none => getRecentNews db 20
      let symbols := portfolioStocks.map (fun s => s.symbol)
      let portfolioNews := recentNews.filter (fun n =>
        n.symbols.any (fun s => symbols.contains s))
      let metrics := calculatePortfolioMetrics weeklyOutcome monthlyOutcome
        sentimentOutcome reportDate
      (.ok { portfolioName := portfolio.name
             portfolioDescription := portfolio.description
             stocks := portfolioStocks
             totalNews := portfolioNews.length
             portfolioNews := portfolioNews
             newsByCategory := groupByCategory portfolioNews
             marketSentiment := avgSentimentOf portfolioNews
             metrics := some metrics
             isEmpty := false },
       1 + metricQueriesIssued weeklyOutcome monthlyOutcome)

/-- An `email_subscriptions` row joined with its portfolio name, restricted to
active rows as `sendDailyReport` selects them. -/
structure Subscription where
  email : String
  portfolioId : Option Nat
  portfolioName : String
deriving DecidableEq

/-- An `email_logs` row as written by the send paths. -/
structure EmailLogEntry where
  recipient : String
  subject : String
  status : String
  errorMessage : Option String
deriving DecidableEq

/-- `EmailService.sendPortfolioEmail(recipient, reportData, portfolioName)`:
on transport success insert a `sent` log row; on transport failure insert a
`failed` row carrying the error message, then rethrow the error. -/
def sendPortfolioEmail (transport : String → Except String Unit)
    (recipient : String) (formattedDate : String) (portfolioName : String) :
    EmailLogEntry × Except String Unit :=
  match transport recipient with
  | .ok _ =>
    (⟨recipient, portfolioName ++ " 投资组合日报 - " ++ formattedDate,
      "sent", none⟩, .ok ())
  | .error msg =>
    (⟨recipient, "市场日报 - " ++ formattedDate, "failed", some msg⟩,
     .error msg)

/-- `EmailService.sendEmail(recipient, reportData)` (the general-report send):
same log-then-rethrow structure. -/
def sendGeneralEmail (transport : String → Except String Unit)
    (recipient : String) (formattedDate : String) :
    EmailLogEntry × Except String Unit :=
  match transport recipient with
  | .ok _ =>
    (⟨recipient, "市场日报 - " ++ formattedDate, "sent", none⟩, .ok ())
  | .error msg =>
    (⟨recipient, "市场日报 - " ++ formattedDate, "failed", some msg⟩,
     .error msg)

/-- Insert into an ascending list of distinct ids. -/
def insertAscNat (n : Nat) : List Nat → List Nat
  | [] => [n]
  | m :: t =>
    if n == m then m :: t
    else if n < m then n :: m :: t
    else m :: insertAscNat n t

/-- The portfolio ids of the grouped subscriptions, in the order
`Object.entries` visits them: integer-like keys iterate in ascending numeric
order. -/
def portfolioIdsAsc (subs : List Subscription) : List Nat :=
  (subs.filterMap (fun s => s.portfolioId)).foldl
    (fun acc n => insertAscNat n acc) []

/-- The emails collected for one portfolio group, in subscription order. -/
def groupEmails (subs : List Subscription) (pid : Nat) : List String :=
  (subs.filter (fun s => s.portfolioId == some pid)).map (fun s => s.email)

/-- The portfolio name recorded when the group is first created. -/
def groupName (subs : List Subscription) (pid : Nat) : String :=
  match subs.find? (fun s => s.portfolioId == some pid) with
  | some s => s.portfolioName
  | none => ""

/-- The general (no-portfolio) group, in subscription order. -/
def generalEmails (subs : List Subscription) : List String :=
  (subs.filter (fun s => s.portfolioId.isNone)).map (fun s => s.email)

/-- The ordered sequence of sends one `sendDailyReport` run performs: every
portfolio group in ascending id order (each email paired with the portfolio
name), then the general group. -/
def sendTasks (subs : List Subscription) : List (String × Option String) :=
  ((portfolioIdsAsc subs).flatMap (fun pid =>
    (groupEmails subs pid).map (fun e => (e, some (groupName subs pid))))) ++
  (generalEmails subs).map (fun e => (e, (none : Option String)))

/-- Dispatch one send: portfolio sends via `sendPortfolioEmail`, general sends
via `sendEmail`. -/
def taskSend (transport : String → Except String Unit) (formattedDate : String) :
    String × Option String → EmailLogEntry × Except String Unit
  | (email, some pname) => sendPortfolioEmail transport email formattedDate pname
  | (email, none) => sendGeneralEmail transport email formattedDate

/-- The send loops of `sendDailyReport`: each send is awaited with no
surrounding `try`, so a rethrown send error propagates and ends the run;
returns the log rows written and the final outcome. -/
def processSends (transport : String → Except String Unit)
    (formattedDate : String) :
    List (String × Option String) → List EmailLogEntry × Except String Unit
  | [] => ([], .ok ())
  | task :: rest =>
    match taskSend transport formattedDate task with
    | (log, .ok _) =>
      let r := processSends transport formattedDate rest
      (log :: r.1, r.2)
    | (log, .error e) => ([log], .error e)

/-- `EmailService.sendDailyReport()`: group the active subscriptions, then run
the sends in order; the outer `catch` only logs and rethrows, so the outcome
of the loop is the outcome of the run. -/
def sendDailyReport (transport : String → Except String Unit)
    (formattedDate : String) (subs : List Subscription) :
    List EmailLogEntry × Except String Unit :=
  processSends transport formattedDate (sendTasks subs)

/-- A transport that fails for the first of two recipients. -/
def c1Transport : String → Except String Unit :=
  fun r => if r == "a@x.com" then .error "SMTP down" else .ok ()

/-- Two active subscriptions to the same portfolio. -/
def c1Subs : List Subscription :=
  [⟨"a@x.com", some 1, "Tech"⟩, ⟨"b@x.com", some 1, "Tech"⟩]

/-- A transport that fails for the middle recipient only. -/
def c1wTransport : String → Except String Unit :=
  fun r => if r == "b@x.com" then .error "mailbox full" else .ok ()

/-- Two portfolio subscriptions and one general subscription. -/
def c1wSubs : List Subscription :=
  [⟨"a@x.com", some 1, "Tech"⟩, ⟨"b@x.com", some 1, "Tech"⟩,
   ⟨"c@x.com", none, ""⟩]

/-- A one-row news store for the idempotence witness. -/
def c3Row : NewsRow :=
  ⟨"T", none, "S", "https://x/1", "Src", "general", [], 0, 0⟩

/-- A store whose single portfolio has no stocks (another portfolio has one). -/
def c8Db : DB :=
  ⟨[⟨2, "Empty", "d"⟩], [⟨3, "AAPL", "Apple"⟩], []⟩

/-- A store with one portfolio, for the metrics-never-fail-report witness. -/
def c9Db : DB :=
  ⟨[⟨1, "Tech", "d"⟩], [], []⟩

/-- C6: `isRelevantNews` decides relevance as the ordered, case-insensitive
substring disjunction holdings-then-industries-then-generic-terms, and on the
scenario title "Apple Inc reports record earnings" with holding
(AAPL, Apple Inc) it returns `true`. -/
theorem C6_isRelevantNews_match_order :
  (∀ (t : String) (p : List Stock) (i : List Industry),
      isRelevantNews t p i =
        (p.any (stockMatches (toLowerStr t)) ||
         i.any (industryMatches (toLowerStr t)) ||
         financialKeywords.any (fun k => containsStr (toLowerStr t) k))) ∧
  isRelevantNews "Apple Inc reports record earnings"
    [⟨"AAPL", "Apple Inc"⟩] [] = true := by
  constructor
  · intro t p i
    simp only [isRelevantNews]
    cases hp : p.any (stockMatches (toLowerStr t)) <;>
      cases hi : i.any (industryMatches (toLowerStr t)) <;> simp
  · decide

/-- C7 counterexample: the check substituted when both universes are empty is
not the generic list of `isRelevantNews` — on the title "CEO pay rises" the
substituted check accepts while the generic financial-term clause (and
`isRelevantNews` itself with empty universes) rejects. -/
theorem C7_counterexample :
  apiArticleRelevant "CEO pay rises" [] [] = true ∧
  financialKeywords.any
    (fun k => containsStr (toLowerStr "CEO pay rises") k) = false ∧
  isRelevantNews "CEO pay rises" [] [] = false := by
  refine ⟨by decide, by decide, by decide⟩

/-- C7 amended: with both universes empty, the API fetch path substitutes
`isFinancialNews`, which uses an extended generic keyword list (a strict
superset of the `isRelevantNews` list, adding terms such as economy, finance,
company, ceo, ipo, merger); the scenario title "Local bakery wins award" is
still judged not relevant. -/
theorem C7_empty_universe_fallback :
  (∀ t : String, apiArticleRelevant t [] [] = isFinancialNews t) ∧
  financialKeywords.all (fun k => financialNewsKeywords.contains k) = true ∧
  apiArticleRelevant "Local bakery wins award" [] [] = false := by
  refine ⟨fun t => rfl, by decide, by decide⟩

/-- C10: the two `NewsService` classes in the source define extensionally
equal classifiers: `isRelevantNews` and `categorizeNews` agree pointwise
between the first and the second class. -/
theorem C10_duplicate_classifiers_agree :
  (∀ (t : String) (p : List Stock) (i : List Industry),
      isRelevantNews t p i = isRelevantNews2 t p i) ∧
  (∀ (t : String) (i : List Industry),
      categorizeNews t i = categorizeNews2 t i) :=
  ⟨fun _ _ _ => rfl, fun _ _ => rfl⟩

/-- C5: `analyzeSentiment` never raises and always returns a value in
`[-1, 1]`; it returns `0` exactly when no backend is configured, the call
throws, or the output is non-numeric, and clamps a parsed number into the
range otherwise. -/
theorem C5_analyzeSentiment_bounded :
  (∀ (cfg : Bool) (r : Except String String),
      -1 ≤ analyzeSentiment cfg r ∧ analyzeSentiment cfg r ≤ 1) ∧
  (∀ r : Except String String, analyzeSentiment false r = 0) ∧
  (∀ e : String, analyzeSentiment true (.error e) = 0) ∧
  (∀ s : String, parseJSFloat (trimStr s) = none →
      analyzeSentiment true (.ok s) = 0) ∧
  (∀ (s : String) (q : ℚ), parseJSFloat (trimStr s) = some q →
      analyzeSentiment true (.ok s) = max (-1) (min 1 q)) := by
  refine ⟨?_, fun r => rfl, fun e => rfl, ?_, ?_⟩
  · intro cfg r
    cases cfg with
    | false => norm_num [analyzeSentiment]
    | true =>
      cases r with
      | error e => norm_num [analyzeSentiment]
      | ok s =>
        simp only [analyzeSentiment]
        cases h : parseJSFloat (trimStr s) with
        | none => norm_num
        | some q =>
          refine ⟨le_max_left _ _, max_le (by norm_num) (min_le_left _ _)⟩
  · intro s h
    simp [analyzeSentiment, h]
  · intro s q h
    simp [analyzeSentiment, h]

/-- C5 witness: the theorem applied at the non-numeric output "banana" and at
the out-of-range output "5". -/
theorem C5_analyzeSentiment_bounded_witness :
  analyzeSentiment true (.ok "banana") = 0 ∧
  analyzeSentiment true (.ok "5") = max (-1) (min 1 5) :=
  ⟨C5_analyzeSentiment_bounded.2.2.2.1 "banana" (by decide),
   C5_analyzeSentiment_bounded.2.2.2.2 "5" 5 (by decide)⟩

/-- C9 counterexample: when only the sentiment query fails, the code zeroes
every metric — the successfully computed weekly count 5 and monthly count 7
are not kept, contradicting per-metric independent defaulting. -/
theorem C9_counterexample :
  (calculatePortfolioMetrics (.ok 5) (.ok 7) (.error "db timeout")
    0).weeklyNewsCount = 0 ∧
  (calculatePortfolioMetrics (.ok 5) (.ok 7) (.error "db timeout")
    0).weeklyNewsCount ≠ 5 ∧
  (calculatePortfolioMetrics (.ok 5) (.ok 7) (.error "db timeout")
    0).monthlyNewsCount ≠ 7 := by
  refine ⟨rfl, by decide, by decide⟩

/-- C9 amended: `calculatePortfolioMetrics` returns the computed metrics when
all three queries succeed and the all-zero metrics object when any of them
fails — defaulting is joint, not per-metric — and it never raises, so a
metrics failure never makes `generatePortfolioReport` fail (the report is
composed whenever the portfolio row exists). -/
theorem C9_metrics_default_jointly :
  (∀ (w m : Nat) (s : Option ℚ) (d : Int),
      calculatePortfolioMetrics (.ok w) (.ok m) (.ok s) d =
        ⟨w, m, s.getD 0, d⟩) ∧
  (∀ (we mo : Except String Nat) (se : Except String (Option ℚ)) (d : Int),
      exceptOk we = false ∨ exceptOk mo = false ∨ exceptOk se = false →
      calculatePortfolioMetrics we mo se d = ⟨0, 0, 0, d⟩) ∧
  (∀ (db : DB) (pid : Nat) (td : Option Int) (now : Int)
      (we mo : Except String Nat) (se : Except String (Option ℚ))
      (p : PortfolioRow),
      db.portfolios.find? (fun q => q.id == pid) = some p →
      exceptOk (generatePortfolioReport db pid td now we mo se).1 = true) := by
  refine ⟨fun w m s d => rfl, ?_, ?_⟩
  · intro we mo se d h
    cases we <;> cases mo <;> cases se <;>
      simp_all [calculatePortfolioMetrics, exceptOk]
  · intro db pid td now we mo se p h
    simp only [generatePortfolioReport, h]
    split <;> rfl

/-- C9 witness: the amended theorem applied at a failing weekly query and at a
one-portfolio store. -/
theorem C9_metrics_default_jointly_witness :
  calculatePortfolioMetrics (.error "down") (.ok 7) (.ok (some 1)) 0 =
    ⟨0, 0, 0, 0⟩ ∧
  exceptOk (generatePortfolioReport c9Db 1 none 0 (.error "down") (.ok 7)
    (.ok (some 1))).1 = true :=
  ⟨C9_metrics_default_jointly.2.1 _ _ _ 0 (Or.inl rfl),
   C9_metrics_default_jointly.2.2 c9Db 1 none 0 _ _ _ ⟨1, "Tech", "d"⟩
     (by decide)⟩

/-- C4 counterexample: at HTTP status 401 the scrape fetch throws a plain
`Error` — free text message, no structured field — which carries none of the
machine-readable subkinds the claim requires. -/
theorem C4_counterexample :
  scrapeNewsSourceFetch (.ok ⟨401, "Unauthorized"⟩) =
    .error ⟨"访问被拒绝 (401) - 可能需要认证或被反爬虫系统阻止", none⟩ ∧
  hasSpecSubkind ⟨"访问被拒绝 (401) - 可能需要认证或被反爬虫系统阻止", none⟩ =
    false :=
  ⟨rfl, rfl⟩

/-- C4 amended: on every HTTP status at or above 400 the scrape fetch throws a
generic `Error` whose free-text message distinguishes 401, 403, 429 and other
statuses, never an error carrying a machine-readable subkind; transport-level
errors (timeout, DNS) are rethrown unchanged by both the scrape and the RSS
fetch paths; no `SourceFetchError` type exists in the source. -/
theorem C4_scrape_errors_are_plain :
  (∀ resp : HttpResponse, 400 ≤ resp.status →
     ∃ e : JsError, scrapeNewsSourceFetch (.ok resp) = .error e ∧
       hasSpecSubkind e = false ∧
       e.message =
         (if resp.status == 401 then
            "访问被拒绝 (401) - 可能需要认证或被反爬虫系统阻止"
          else if resp.status == 403 then "访问被禁止 (403) - 被反爬虫系统阻止"
          else if resp.status == 429 then "请求过于频繁 (429) - 需要降低请求频率"
          else "HTTP错误 " ++ toString resp.status ++ ": " ++ resp.statusText)) ∧
  (∀ e : JsError,
      scrapeNewsSourceFetch (.error e) = .error e) ∧
  (∀ (e : JsError) (items : List ArticleInput),
      scrapeRSSSourceFetch (.error e) = .error e ∧
      scrapeRSSSourceFetch (.ok items) = .ok items) := by
  refine ⟨?_, fun e => rfl, fun e items => ⟨rfl, rfl⟩⟩
  intro resp h
  rcases resp with ⟨st, stx⟩
  simp only [scrapeNewsSourceFetch, scrapeCheckStatus]
  by_cases h1 : st = 401
  · subst h1
    exact ⟨_, rfl, rfl, rfl⟩
  · by_cases h2 : st = 403
    · subst h2
      exact ⟨_, rfl, rfl, rfl⟩
    · by_cases h3 : st = 429
      · subst h3
        exact ⟨_, rfl, rfl, rfl⟩
      · simp only [beq_iff_eq, if_neg h1, if_neg h2, if_neg h3, if_pos h]
        exact ⟨_, rfl, rfl, rfl⟩

/-- C4 witness: the amended theorem applied at a 404 response. -/
theorem C4_scrape_errors_are_plain_witness :
  (400 : Nat) ≤ 404 ∧
  (∃ e : JsError, scrapeNewsSourceFetch (.ok ⟨404, "Not Found"⟩) = .error e ∧
    hasSpecSubkind e = false) :=
  ⟨by norm_num,
   match C4_scrape_errors_are_plain.1 ⟨404, "Not Found"⟩ (by norm_num) with
   | ⟨e, h1, h2, _⟩ => ⟨e, h1, h2⟩⟩

/-- The RSS loop accumulator equals the count of non-throwing sources. -/
theorem runRSSTier_eq_countP (outs : List (Except String Nat)) (acc : Nat) :
    runRSSTier outs acc = acc + outs.countP exceptOk := by
  induction outs generalizing acc with
  | nil => simp [runRSSTier]
  | cons o t ih =>
    cases o with
    | ok v =>
      simp [runRSSTier, ih, List.countP_cons, exceptOk]
      omega
    | error e =>
      simp [runRSSTier, ih, List.countP_cons, exceptOk]

/-- The scrape loop accumulator equals the count of non-throwing sources. -/
theorem runScrapeTier_eq_countP (outs : List (Except String Unit)) (acc : Nat) :
    runScrapeTier outs acc = acc + outs.countP exceptOk := by
  induction outs generalizing acc with
  | nil => simp [runScrapeTier]
  | cons o t ih =>
    cases o with
    | ok v =>
      simp [runScrapeTier, ih, List.countP_cons, exceptOk]
      omega
    | error e =>
      simp [runScrapeTier, ih, List.countP_cons, exceptOk]

/-- C2: every `updateNews` run returns normally; the scrape tier is attempted
exactly when no source of the RSS tier and of the (API-key-conditional) API
tier succeeded; the cleanup always runs; the warning fires exactly when the
whole run had zero source successes. A run with all tiers failing completes
with the warning, the cleanup, and no exception. -/
theorem C2_scrape_only_as_last_resort :
  (∀ inp : UpdateInputs, ∃ r : UpdateResult, updateNews inp = .ok r ∧
     r.cleanupRan = true ∧
     (r.scrapeAttempted = true ↔
       inp.rssOutcomes.countP exceptOk = 0 ∧
       (inp.newsApiKey = false ∨ exceptOk inp.apiOutcome = false)) ∧
     (r.warned = true ↔ r.successCount = 0)) ∧
  (∀ (rss : List (Except String Nat)) (api : Except String Unit)
     (scrape : List (Except String Unit)),
     (∀ o ∈ rss, exceptOk o = false) →
     (∀ o ∈ scrape, exceptOk o = false) →
     ∃ r : UpdateResult, updateNews ⟨rss, false, api, scrape⟩ = .ok r ∧
       r.scrapeAttempted = true ∧ r.warned = true ∧ r.cleanupRan = true) := by
  constructor
  · intro inp
    refine ⟨_, rfl, rfl, ?_, ?_⟩
    · show ((if inp.newsApiKey then
          match inp.apiOutcome with
          | .ok _ => runRSSTier inp.rssOutcomes 0 + 1
          | .error _ => runRSSTier inp.rssOutcomes 0
        else runRSSTier inp.rssOutcomes 0) == 0) = true ↔ _
      cases hk : inp.newsApiKey with
      | false =>
        simp [runRSSTier_eq_countP, beq_iff_eq]
      | true =>
        cases ha : inp.apiOutcome with
        | ok v => simp [runRSSTier_eq_countP, exceptOk, beq_iff_eq]
        | error e => simp [runRSSTier_eq_countP, exceptOk, beq_iff_eq]
    · show (_ == (0 : Nat)) = true ↔ _
      simp [beq_iff_eq]
  · intro rss api scrape hr hs
    have h1 : rss.countP exceptOk = 0 := by
      rw [List.countP_eq_zero]
      intro o ho
      simp [hr o ho]
    have h2 : scrape.countP exceptOk = 0 := by
      rw [List.countP_eq_zero]
      intro o ho
      simp [hs o ho]
    refine ⟨_, rfl, ?_, ?_, rfl⟩
    · show ((runRSSTier rss 0 : Nat) == 0) = true
      simp [runRSSTier_eq_countP, h1]
    · show (_ == (0 : Nat)) = true
      simp [runRSSTier_eq_countP, runScrapeTier_eq_countP, h1, h2]

/-- C2 witness: the theorem applied to a run whose single RSS source fails,
with no API key, and whose single scrape source also fails. -/
theorem C2_scrape_only_as_last_resort_witness :
  ∃ r : UpdateResult,
    updateNews ⟨[.error "net down"], false, .error "nokey",
      [.error "blocked"]⟩ = .ok r ∧
    r.scrapeAttempted = true ∧ r.warned = true ∧ r.cleanupRan = true :=
  C2_scrape_only_as_last_resort.2 [.error "net down"] (.error "nokey")
    [.error "blocked"] (by decide) (by decide)

/-- C3: `saveNews` is idempotent by URL — when a row with the same URL exists
the store is returned unchanged — it never raises, and an INSERT failure is
swallowed leaving the store unchanged, so one failing article cannot abort an
ingestion run. -/
theorem C3_saveNews_idempotent_swallowing :
  (∀ (store : List NewsRow) (article : ArticleInput) (portfolio : List Stock)
     (industries : List Industry) (sel : Except String Unit)
     (content : Option String) (summary : String) (sentiment : ℚ)
     (ins : Except String Unit) (now : Int),
     store.any (fun r => r.url == article.url) = true →
     saveNews store article portfolio industries sel content summary sentiment
       ins now = .ok store) ∧
  (∀ (store : List NewsRow) (article : ArticleInput) (portfolio : List Stock)
     (industries : List Industry) (sel : Except String Unit)
     (content : Option String) (summary : String) (sentiment : ℚ)
     (ins : Except String Unit) (now : Int),
     ∃ s, saveNews store article portfolio industries sel content summary
       sentiment ins now = .ok s) ∧
  (∀ (store : List NewsRow) (article : ArticleInput) (portfolio : List Stock)
     (industries : List Industry) (sel : Except String Unit)
     (content : Option String) (summary : String) (sentiment : ℚ)
     (now : Int) (msg : String),
     saveNews store article portfolio industries sel content summary sentiment
       (.error msg) now = .ok store) := by
  refine ⟨?_, ?_, ?_⟩
  · intro store article portfolio industries sel content summary sentiment
      ins now h
    cases sel with
    | error e => rfl
    | ok u => simp [saveNews, saveNewsBody, h]
  · intro store article portfolio industries sel content summary sentiment
      ins now
    cases sel with
    | error e => exact ⟨store, rfl⟩
    | ok u =>
      cases hAny : store.any (fun r => r.url == article.url) with
      | true => exact ⟨store, by simp [saveNews, saveNewsBody, hAny]⟩
      | false =>
        cases ins with
        | error msg => exact ⟨store, by simp [saveNews, saveNewsBody, hAny]⟩
        | ok v =>
          refine ⟨store ++ [⟨article.title, content, summary, article.url,
            article.source, categorizeNews article.title industries,
            extractRelatedSymbols
              (article.title ++ " " ++ jsStringOfNullable content) portfolio,
            sentiment, now⟩], ?_⟩
          simp [saveNews, saveNewsBody, hAny]
  · intro store article portfolio industries sel content summary sentiment
      now msg
    cases sel with
    | error e => rfl
    | ok u =>
      cases hAny : store.any (fun r => r.url == article.url) with
      | true => simp [saveNews, saveNewsBody, hAny]
      | false => simp [saveNews, saveNewsBody, hAny]

/-- C3 witness: the theorem applied to a store already holding the URL, and to
an INSERT that fails. -/
theorem C3_saveNews_idempotent_swallowing_witness :
  saveNews [c3Row] ⟨"T2", "https://x/1", "Src"⟩ [] [] (.ok ()) none "sum" 0
    (.ok ()) 5 = .ok [c3Row] ∧
  saveNews [] ⟨"T3", "https://x/2", "Src"⟩ [] [] (.ok ()) none "sum" 0
    (.error "disk full") 5 = .ok [] :=
  ⟨C3_saveNews_idempotent_swallowing.1 [c3Row] ⟨"T2", "https://x/1", "Src"⟩
     [] [] (.ok ()) none "sum" 0 (.ok ()) 5 (by decide),
   C3_saveNews_idempotent_swallowing.2.2 [] ⟨"T3", "https://x/2", "Src"⟩
     [] [] (.ok ()) none "sum" 0 5 "disk full"⟩

/-- C8: for a portfolio that exists but has no stocks,
`generatePortfolioReport` returns the empty-portfolio report variant (isEmpty
set, zero news, empty category mapping, sentiment 0) and issues no query
against the news store. -/
theorem C8_empty_portfolio_short_circuits :
  ∀ (db : DB) (pid : Nat) (td : Option Int) (now : Int)
    (we mo : Except String Nat) (se : Except String (Option ℚ))
    (p : PortfolioRow),
    db.portfolios.find? (fun q => q.id == pid) = some p →
    db.portfolioStocks.filter (fun s => s.portfolioId == pid) = [] →
    generatePortfolioReport db pid td now we mo se =
      (.ok (generateEmptyPortfolioReport p), 0) ∧
    (generateEmptyPortfolioReport p).isEmpty = true ∧
    (generateEmptyPortfolioReport p).totalNews = 0 ∧
    (generateEmptyPortfolioReport p).newsByCategory = [] ∧
    (generateEmptyPortfolioReport p).marketSentiment = 0 := by
  intro db pid td now we mo se p hfind hstocks
  refine ⟨?_, rfl, rfl, rfl, rfl⟩
  simp [generatePortfolioReport, hfind, hstocks]

/-- C8 witness: the theorem applied to a store whose portfolio 2 exists and
has no stocks (a stock row of another portfolio is present). -/
theorem C8_empty_portfolio_short_circuits_witness :
  generatePortfolioReport c8Db 2 none 0 (.ok 1) (.ok 1) (.ok none) =
    (.ok (generateEmptyPortfolioReport ⟨2, "Empty", "d"⟩), 0) ∧
  (generateEmptyPortfolioReport (⟨2, "Empty", "d"⟩ : PortfolioRow)).isEmpty =
    true ∧
  (generateEmptyPortfolioReport (⟨2, "Empty", "d"⟩ : PortfolioRow)).totalNews =
    0 ∧
  (generateEmptyPortfolioReport
    (⟨2, "Empty", "d"⟩ : PortfolioRow)).newsByCategory = [] ∧
  (generateEmptyPortfolioReport
    (⟨2, "Empty", "d"⟩ : PortfolioRow)).marketSentiment = 0 :=
  C8_empty_portfolio_short_circuits c8Db 2 none 0 (.ok 1) (.ok 1) (.ok none)
    ⟨2, "Empty", "d"⟩ (by decide) (by decide)

/-- When every pending send succeeds, the loop logs one `sent` row per
recipient and completes normally. -/
theorem processSends_all_ok (transport : String → Except String Unit)
    (fd : String) :
    ∀ tasks : List (String × Option String),
    (∀ t ∈ tasks, (taskSend transport fd t).2 = .ok ()) →
    processSends transport fd tasks =
      (tasks.map (fun t => (taskSend transport fd t).1), .ok ()) := by
  intro tasks
  induction tasks with
  | nil => intro h; rfl
  | cons a t ih =>
    intro h
    have ha := h a (List.mem_cons_self a t)
    have ht : ∀ x ∈ t, (taskSend transport fd x).2 = .ok () :=
      fun x hx => h x (List.mem_cons_of_mem a hx)
    rcases hts : taskSend transport fd a with ⟨log, res⟩
    rw [hts] at ha
    cases res with
    | error e => simp at ha
    | ok u =>
      cases u
      simp [processSends, hts, ih ht]

/-- The first failing send ends the loop: earlier sends are logged, the
failing send is logged, nothing after it is attempted, and the error
propagates. -/
theorem processSends_abort (transport : String → Except String Unit)
    (fd : String) :
    ∀ (l1 : List (String × Option String)) (task : String × Option String)
      (l2 : List (String × Option String)) (msg : String),
    (∀ t ∈ l1, (taskSend transport fd t).2 = .ok ()) →
    (taskSend transport fd task).2 = .error msg →
    processSends transport fd (l1 ++ task :: l2) =
      (l1.map (fun t => (taskSend transport fd t).1) ++
        [(taskSend transport fd task).1], .error msg) := by
  intro l1
  induction l1 with
  | nil =>
    intro task l2 msg hok hfail
    rcases hts : taskSend transport fd task with ⟨log, res⟩
    rw [hts] at hfail
    cases res with
    | ok u => simp at hfail
    | error e =>
      simp at hfail
      subst hfail
      simp [processSends, hts]
  | cons a t ih =>
    intro task l2 msg hok hfail
    have ha := hok a (List.mem_cons_self a t)
    have ht : ∀ x ∈ t, (taskSend transport fd x).2 = .ok () :=
      fun x hx => hok x (List.mem_cons_of_mem a hx)
    rcases hts : taskSend transport fd a with ⟨log, res⟩
    rw [hts] at ha
    cases res with
    | error e => simp at ha
    | ok u =>
      cases u
      simp [processSends, hts, ih task l2 msg ht hfail]

/-- C1 counterexample: two active subscriptions for the same portfolio, the
transport fails for the first recipient — the failure is logged as a `failed`
row with the error text, but the second recipient is never attempted and
`sendDailyReport` itself raises, so sends are not independent. -/
theorem C1_counterexample :
  (sendDailyReport c1Transport "2026-02-03" c1Subs).1 =
    [⟨"a@x.com", "市场日报 - 2026-02-03", "failed", some "SMTP down"⟩] ∧
  (sendDailyReport c1Transport "2026-02-03" c1Subs).2 =
    .error "SMTP down" ∧
  ((sendDailyReport c1Transport "2026-02-03" c1Subs).1.map
    (fun l => l.recipient)).contains "b@x.com" = false := by
  refine ⟨by decide, by decide, by decide⟩

/-- C1 amended: a transport failure is caught inside the send helper, logged
as a `failed` entry carrying the error text, and rethrown; `sendDailyReport`
has no per-recipient catch, so the first failing send aborts every remaining
send of the run (same group and later groups including the general group) and
the run itself raises; only a run whose sends all succeed reaches every
recipient. -/
theorem C1_send_failure_aborts_run :
  (∀ (transport : String → Except String Unit) (fd : String)
     (subs : List Subscription) (l1 : List (String × Option String))
     (task : String × Option String) (l2 : List (String × Option String))
     (msg : String),
     sendTasks subs = l1 ++ task :: l2 →
     (∀ t ∈ l1, (taskSend transport fd t).2 = .ok ()) →
     (taskSend transport fd task).2 = .error msg →
     sendDailyReport transport fd subs =
       (l1.map (fun t => (taskSend transport fd t).1) ++
         [(taskSend transport fd task).1], .error msg)) ∧
  (∀ (transport : String → Except String Unit) (fd : String)
     (task : String × Option String) (msg : String),
     (taskSend transport fd task).2 = .error msg →
     (taskSend transport fd task).1.status = "failed" ∧
     (taskSend transport fd task).1.errorMessage = some msg) ∧
  (∀ (transport : String → Except String Unit) (fd : String)
     (subs : List Subscription),
     (∀ t ∈ sendTasks subs, (taskSend transport fd t).2 = .ok ()) →
     sendDailyReport transport fd subs =
       ((sendTasks subs).map (fun t => (taskSend transport fd t).1),
        .ok ())) := by
  refine ⟨?_, ?_, ?_⟩
  · intro transport fd subs l1 task l2 msg hsplit hok hfail
    unfold sendDailyReport
    rw [hsplit]
    exact processSends_abort transport fd l1 task l2 msg hok hfail
  · intro transport fd task msg hfail
    rcases task with ⟨email, pname⟩
    cases pname with
    | none =>
      cases htr : transport email with
      | ok u =>
        simp only [taskSend, sendGeneralEmail, htr] at hfail
        simp at hfail
      | error m =>
        simp only [taskSend, sendGeneralEmail, htr] at hfail
        simp at hfail
        subst hfail
        simp [taskSend, sendGeneralEmail, htr]
    | some pn =>
      cases htr : transport email with
      | ok u =>
        simp only [taskSend, sendPortfolioEmail, htr] at hfail
        simp at hfail
      | error m =>
        simp only [taskSend, sendPortfolioEmail, htr] at hfail
        simp at hfail
        subst hfail
        simp [taskSend, sendPortfolioEmail, htr]
  · intro transport fd subs h
    unfold sendDailyReport
    exact processSends_all_ok transport fd (sendTasks subs) h

/-- C1 witness: the amended theorem applied to two portfolio subscriptions and
one general subscription with the transport failing on the second recipient. -/
theorem C1_send_failure_aborts_run_witness :
  sendDailyReport c1wTransport "2026-02-03" c1wSubs =
    ([(("a@x.com" : String), (some "Tech" : Option String))].map
       (fun t => (taskSend c1wTransport "2026-02-03" t).1) ++
      [(taskSend c1wTransport "2026-02-03" ("b@x.com", some "Tech")).1],
     .error "mailbox full") :=
  C1_send_failure_aborts_run.1 c1wTransport "2026-02-03" c1wSubs
    [("a@x.com", some "Tech")] ("b@x.com", some "Tech")
    [("c@x.com", none)] "mailbox full" (by decide) (by decide) (by decide)
